import Mathlib

/-!
Shallow embedding of `src/currencycloud/http.py`, the `Http` mixin of the
currencycloud client.  The mixin resolves a request URL from the configured
environment, injects the configured `on_behalf_of` identifier into the
caller's parameter mapping, builds the auth header, runs the request through
a 401-reauthentication retry loop, and maps the final response's status code
to either a parsed body or a typed error.

External collaborators (the transport session and the reauthentication
procedure of the `Config` object) are modelled as a `World`: a stream of
responses indexed by the number of requests issued so far, and a function
from the current token to the refreshed token.  The mutable state touched by
one `get`/`post` call (the auth token, the number of `reauthenticate()`
invocations, and the log of requests handed to the session) is threaded
explicitly as a `CallState`.
-/

set_option autoImplicit false

namespace Currencycloud

/-- A transport response: a numeric status code and a body.  The Python
`response.json()` call is modelled as returning the body itself. -/
structure Response where
  status_code : Nat
  body : String
deriving DecidableEq, Repr

/-- A string-keyed parameter mapping (Python dict), in insertion order. -/
abbrev Params := List (String × String)

/-- Modelled from the spec: the environment-name constants
`Config.ENV_PRODUCTION`, `Config.ENV_DEMONSTRATION`, `Config.ENV_UAT` are
defined in the repository's config module, which is not part of this source
snapshot; the spec fixes the enumeration as production, demonstration, UAT. -/
def ENV_PRODUCTION : String := "production"

/-- Modelled from the spec: see `ENV_PRODUCTION`. -/
def ENV_DEMONSTRATION : String := "demonstration"

/-- Modelled from the spec: see `ENV_PRODUCTION`. -/
def ENV_UAT : String := "uat"

/-- The immutable part of the `Config` collaborator that `http.py` reads:
the environment name and the optional `on_behalf_of` identifier.  The
mutable `auth_token` lives in `CallState`. -/
structure Config where
  environment : String
  on_behalf_of : Option String
deriving DecidableEq, Repr

/-- Modelled from the spec: the `errors` module is not part of this source
snapshot; the spec's taxonomy has one error kind per mapped status code plus
the generic `ApiError` fallback. -/
inductive ErrorKind where
  | BadRequestError
  | AuthenticationError
  | ForbiddenError
  | NotFoundError
  | TooManyRequestsError
  | InternalApplicationError
  | ApiError
deriving DecidableEq, Repr

/-- An error instance as constructed by `__handle_errors`: the chosen kind
applied to `(verb, url, params, response)`. -/
structure ErrorInstance where
  kind : ErrorKind
  verb : String
  url : String
  params : Option Params
  response : Response
deriving DecidableEq, Repr

/-- One request handed to the underlying session, as recorded in the log. -/
structure RequestRecord where
  verb : String
  url : String
  headers : Params
  data : Option Params
deriving DecidableEq, Repr

/-- The mutable state a single `get`/`post` call can touch: the config's
auth token, how many times `config.reauthenticate()` ran, and the requests
issued through the session so far. -/
structure CallState where
  auth_token : String
  reauthCount : Nat
  requestLog : List RequestRecord
deriving DecidableEq, Repr

/-- The external collaborators: the session's response to the `i`-th request
issued, and the reauthentication procedure's effect on the token. -/
structure World where
  responses : Nat → Response
  reauth : String → String

/-- The fixed host table `Http.ENVIRONMENT_URLS`, as a lookup. -/
def ENVIRONMENT_URLS (environment : String) : Option String :=
  if environment = ENV_PRODUCTION then some "https://api.thecurrencycloud.com"
  else if environment = ENV_DEMONSTRATION then some "https://devapi.thecurrencycloud.com"
  else if environment = ENV_UAT then some "https://api-uat1.ccycloud.com"
  else none

/-- `Http.__environment_url`: base URL for the configured environment, or a
`RuntimeError` message when the environment is not in the table. -/
def environment_url (cfg : Config) : Except String String :=
  match ENVIRONMENT_URLS cfg.environment with
  | none => Except.error (cfg.environment ++ " is not a valid environment name")
  | some u => Except.ok u

/-- `Http.__build_url`: environment base URL concatenated with the endpoint. -/
def build_url (cfg : Config) (endpoint : String) : Except String String :=
  (environment_url cfg).map (fun base => base ++ endpoint)

/-- Dict membership test `key in data` on the parameter mapping. -/
def containsKey (d : Params) (k : String) : Bool :=
  d.any (fun p => p.1 = k)

/-- `Http.__handle_on_behalf_of`: when `config.on_behalf_of` is set, create
an empty mapping if the caller passed none, and insert the configured value
under `on_behalf_of` unless the caller already supplied that key. -/
def handle_on_behalf_of (cfg : Config) (data : Option Params) : Option Params :=
  match cfg.on_behalf_of with
  | none => data
  | some v =>
    let d := data.getD []
    if containsKey d "on_behalf_of" then some d
    else some (d ++ [("on_behalf_of", v)])

/-- `Http.__build_headers`: a single `X-Auth-Token` header when
authenticated, no headers otherwise. -/
def build_headers (authenticated : Bool) (auth_token : String) : Params :=
  if authenticated then [("X-Auth-Token", auth_token)] else []

/-- `Http.HTTP_CODE_TO_ERROR`: exact status-code lookup. -/
def HTTP_CODE_TO_ERROR (code : Nat) : Option ErrorKind :=
  if code = 400 then some ErrorKind.BadRequestError
  else if code = 401 then some ErrorKind.AuthenticationError
  else if code = 403 then some ErrorKind.ForbiddenError
  else if code = 404 then some ErrorKind.NotFoundError
  else if code = 429 then some ErrorKind.TooManyRequestsError
  else if code = 500 then some ErrorKind.InternalApplicationError
  else none

/-- `Http.__handle_errors`: a 2xx status returns the parsed body, anything
else raises the mapped error kind (defaulting to `ApiError`) carrying the
verb, URL, parameters and raw response. -/
def handle_errors (verb url : String) (params : Option Params)
    (response : Response) : Except ErrorInstance String :=
  if response.status_code / 100 = 2 then
    Except.ok response.body
  else
    Except.error
      { kind := (HTTP_CODE_TO_ERROR response.status_code).getD ErrorKind.ApiError
        verb := verb, url := url, params := params, response := response }

/-- `execute_request` as passed to the retry loop: hand the request to the
session (recording it) and receive the next response of the stream. -/
def execute_request (w : World) (verb url : String) (headers : Params)
    (data : Option Params) (s : CallState) : Response × CallState :=
  (w.responses s.requestLog.length,
   { s with requestLog := s.requestLog ++ [⟨verb, url, headers, data⟩] })

/-- `config.reauthenticate()`: refresh the token in place and count the
invocation. -/
def reauthenticate (w : World) (s : CallState) : CallState :=
  { s with auth_token := w.reauth s.auth_token, reauthCount := s.reauthCount + 1 }

/-- The `while retry_count` loop body of `__handle_authentication_errors`.
The fuel `m` is `retry_count - 1`: the number of further iterations allowed
after the current one (the source initialises `retry_count` to 3 or 1, so
the body always runs at least once).  Each iteration issues the request; a
non-401 response is returned at once.  On a 401 with `retry` set, the config
reauthenticates and the headers are rebuilt — also on the last iteration,
whose refreshed token is never used. -/
def auth_loop (w : World) (verb : String) (retry authenticated : Bool)
    (url : String) (data : Option Params) :
    Nat → Params → CallState → Response × CallState
  | 0, headers, s =>
    let r := execute_request w verb url headers data s
    if r.1.status_code ≠ 401 then r
    else (r.1, if retry then reauthenticate w r.2 else r.2)
  | m + 1, headers, s =>
    let r := execute_request w verb url headers data s
    if r.1.status_code ≠ 401 then r
    else
      let s2 := if retry then reauthenticate w r.2 else r.2
      auth_loop w verb retry authenticated url data m
        (if retry then build_headers authenticated s2.auth_token else headers) s2

/-- `Http.__handle_authentication_errors`: run the loop with
`retry_count = 3` when `retry` is set, else `1`. -/
def handle_authentication_errors (w : World) (verb : String) (retry : Bool)
    (url : String) (headers : Params) (data : Option Params)
    (authenticated : Bool) (s : CallState) : Response × CallState :=
  auth_loop w verb retry authenticated url data (if retry then 2 else 0) headers s

/-- The observable outcome of a `get`/`post` call: parsed body, raised
mapped error, or the `RuntimeError` of an invalid environment. -/
inductive HttpOutcome where
  | success (body : String)
  | apiError (e : ErrorInstance)
  | runtimeError (msg : String)
deriving DecidableEq, Repr

/-- Wrap `__handle_errors`'s return-or-raise into an outcome. -/
def outcomeOf : Except ErrorInstance String → HttpOutcome
  | Except.ok body => HttpOutcome.success body
  | Except.error e => HttpOutcome.apiError e

/-- `Http.get`: build the URL (raising on an invalid environment before
anything else), inject `on_behalf_of`, build headers, run the retry loop,
and map the final response. -/
def get (cfg : Config) (w : World) (endpoint : String) (query : Option Params)
    (authenticated retry : Bool) (s : CallState) : HttpOutcome × CallState :=
  match build_url cfg endpoint with
  | Except.error msg => (HttpOutcome.runtimeError msg, s)
  | Except.ok url =>
    let query2 := handle_on_behalf_of cfg query
    let headers := build_headers authenticated s.auth_token
    let r := handle_authentication_errors w "get" retry url headers query2 authenticated s
    (outcomeOf (handle_errors "get" url query2 r.1), r.2)

/-- `Http.post`: identical to `get` except for the verb and the parameter
being a request body. -/
def post (cfg : Config) (w : World) (endpoint : String) (data : Option Params)
    (authenticated retry : Bool) (s : CallState) : HttpOutcome × CallState :=
  match build_url cfg endpoint with
  | Except.error msg => (HttpOutcome.runtimeError msg, s)
  | Except.ok url =>
    let data2 := handle_on_behalf_of cfg data
    let headers := build_headers authenticated s.auth_token
    let r := handle_authentication_errors w "post" retry url headers data2 authenticated s
    (outcomeOf (handle_errors "post" url data2 r.1), r.2)


@[simp] theorem reauthenticate_requestLog (w : World) (s : CallState) :
    (reauthenticate w s).requestLog = s.requestLog := rfl

@[simp] theorem reauthenticate_reauthCount (w : World) (s : CallState) :
    (reauthenticate w s).reauthCount = s.reauthCount + 1 := rfl

@[simp] theorem reauthenticate_auth_token (w : World) (s : CallState) :
    (reauthenticate w s).auth_token = w.reauth s.auth_token := rfl

theorem auth_loop_not401 (w : World) (verb : String) (retry authenticated : Bool)
    (url : String) (data : Option Params) (m : Nat) (headers : Params) (s : CallState)
    (h : (w.responses s.requestLog.length).status_code ≠ 401) :
    auth_loop w verb retry authenticated url data m headers s
      = (w.responses s.requestLog.length,
         { s with requestLog := s.requestLog ++ [⟨verb, url, headers, data⟩] }) := by
  cases m <;> simp [auth_loop, execute_request, h]

theorem auth_loop_zero_401_retry (w : World) (verb : String) (authenticated : Bool)
    (url : String) (data : Option Params) (headers : Params) (s : CallState)
    (h : (w.responses s.requestLog.length).status_code = 401) :
    auth_loop w verb true authenticated url data 0 headers s
      = (w.responses s.requestLog.length,
         reauthenticate w { s with requestLog := s.requestLog ++ [⟨verb, url, headers, data⟩] }) := by
  simp [auth_loop, execute_request, reauthenticate, h]

theorem auth_loop_zero_401_noretry (w : World) (verb : String) (authenticated : Bool)
    (url : String) (data : Option Params) (headers : Params) (s : CallState)
    (h : (w.responses s.requestLog.length).status_code = 401) :
    auth_loop w verb false authenticated url data 0 headers s
      = (w.responses s.requestLog.length,
         { s with requestLog := s.requestLog ++ [⟨verb, url, headers, data⟩] }) := by
  simp [auth_loop, execute_request, h]

theorem auth_loop_succ_401_retry (w : World) (verb : String) (authenticated : Bool)
    (url : String) (data : Option Params) (m : Nat) (headers : Params) (s : CallState)
    (h : (w.responses s.requestLog.length).status_code = 401) :
    auth_loop w verb true authenticated url data (m + 1) headers s
      = auth_loop w verb true authenticated url data m
          (build_headers authenticated (w.reauth s.auth_token))
          (reauthenticate w { s with requestLog := s.requestLog ++ [⟨verb, url, headers, data⟩] }) := by
  simp [auth_loop, execute_request, reauthenticate, h]

theorem auth_loop_succ_401_noretry (w : World) (verb : String) (authenticated : Bool)
    (url : String) (data : Option Params) (m : Nat) (headers : Params) (s : CallState)
    (h : (w.responses s.requestLog.length).status_code = 401) :
    auth_loop w verb false authenticated url data (m + 1) headers s
      = auth_loop w verb false authenticated url data m headers
          { s with requestLog := s.requestLog ++ [⟨verb, url, headers, data⟩] } := by
  simp [auth_loop, execute_request, h]


theorem auth_loop_run (w : World) (verb : String) (retry authenticated : Bool)
    (url : String) (data : Option Params) (m : Nat) :
    ∀ (headers : Params) (s : CallState), ∃ k : Nat,
      (auth_loop w verb retry authenticated url data m headers s).2.requestLog.length
        = s.requestLog.length + k
      ∧ 1 ≤ k ∧ k ≤ m + 1
      ∧ (auth_loop w verb retry authenticated url data m headers s).1
          = w.responses (s.requestLog.length + k - 1)
      ∧ (∀ j, j + 1 < k → (w.responses (s.requestLog.length + j)).status_code = 401)
      ∧ ((auth_loop w verb retry authenticated url data m headers s).1.status_code ≠ 401 →
          (auth_loop w verb retry authenticated url data m headers s).2.reauthCount
            = s.reauthCount + (if retry then k - 1 else 0))
      ∧ (retry = false →
          (auth_loop w verb retry authenticated url data m headers s).2.reauthCount
              = s.reauthCount
            ∧ (auth_loop w verb retry authenticated url data m headers s).2.auth_token
              = s.auth_token) := by
  induction m with
  | zero =>
    intro headers s
    refine ⟨1, ?_⟩
    by_cases h : (w.responses s.requestLog.length).status_code = 401
    · cases retry
      · rw [auth_loop_zero_401_noretry w verb authenticated url data headers s h]
        refine ⟨by simp, le_refl 1, le_refl 1, by simp, ?_, ?_, ?_⟩
        · intro j hj; omega
        · intro hne; exact absurd h hne
        · intro _; exact ⟨rfl, rfl⟩
      · rw [auth_loop_zero_401_retry w verb authenticated url data headers s h]
        refine ⟨by simp, le_refl 1, le_refl 1, by simp, ?_, ?_, ?_⟩
        · intro j hj; omega
        · intro hne; exact absurd h hne
        · intro hfalse; exact absurd hfalse (by simp)
    · rw [auth_loop_not401 w verb retry authenticated url data 0 headers s h]
      refine ⟨by simp, le_refl 1, le_refl 1, by simp, ?_, ?_, ?_⟩
      · intro j hj; omega
      · intro _; simp
      · intro _; exact ⟨rfl, rfl⟩
  | succ m ih =>
    intro headers s
    by_cases h : (w.responses s.requestLog.length).status_code = 401
    · cases retry
      · obtain ⟨k, hlen, hk1, hkm, hresp, h401, hreauth, hpres⟩ :=
          ih headers { s with requestLog := s.requestLog ++ [⟨verb, url, headers, data⟩] }
        rw [auth_loop_succ_401_noretry w verb authenticated url data m headers s h]
        simp only [List.length_append, List.length_cons, List.length_nil] at hlen hresp h401
        refine ⟨k + 1, by omega, by omega, by omega, ?_, ?_, ?_, ?_⟩
        · rw [hresp]; congr 1; omega
        · intro j hj
          match j, hj with
          | 0, _ => exact h
          | j + 1, hj =>
            have := h401 j (by omega)
            rw [show s.requestLog.length + 0 + 1 + j = s.requestLog.length + (j + 1) by omega] at this
            exact this
        · intro hne
          have := hreauth hne
          simpa using this
        · intro _
          have := hpres rfl
          simpa using this
      · obtain ⟨k, hlen, hk1, hkm, hresp, h401, hreauth, _⟩ :=
          ih (build_headers authenticated (w.reauth s.auth_token))
            (reauthenticate w { s with requestLog := s.requestLog ++ [⟨verb, url, headers, data⟩] })
        rw [auth_loop_succ_401_retry w verb authenticated url data m headers s h]
        simp only [reauthenticate_requestLog, reauthenticate_reauthCount,
          List.length_append, List.length_cons, List.length_nil] at hlen hresp h401 hreauth
        refine ⟨k + 1, by omega, by omega, by omega, ?_, ?_, ?_, ?_⟩
        · rw [hresp]; congr 1; omega
        · intro j hj
          match j, hj with
          | 0, _ => exact h
          | j + 1, hj =>
            have := h401 j (by omega)
            rw [show s.requestLog.length + 0 + 1 + j = s.requestLog.length + (j + 1) by omega] at this
            exact this
        · intro hne
          have := hreauth hne
          simp at this ⊢
          omega
        · intro hfalse; exact absurd hfalse (by simp)
    · rw [auth_loop_not401 w verb retry authenticated url data (m + 1) headers s h]
      refine ⟨1, by simp, le_refl 1, by omega, by simp, ?_, ?_, ?_⟩
      · intro j hj; omega
      · intro _; simp
      · intro _; exact ⟨rfl, rfl⟩


theorem auth_loop_fuel2_401_retry (w : World) (verb : String) (authenticated : Bool)
    (url : String) (data : Option Params) (headers : Params) (s : CallState)
    (h : (w.responses s.requestLog.length).status_code = 401) :
    auth_loop w verb true authenticated url data 2 headers s
      = auth_loop w verb true authenticated url data 1
          (build_headers authenticated (w.reauth s.auth_token))
          (reauthenticate w { s with requestLog := s.requestLog ++ [⟨verb, url, headers, data⟩] }) :=
  auth_loop_succ_401_retry w verb authenticated url data 1 headers s h

theorem auth_loop_fuel1_401_retry (w : World) (verb : String) (authenticated : Bool)
    (url : String) (data : Option Params) (headers : Params) (s : CallState)
    (h : (w.responses s.requestLog.length).status_code = 401) :
    auth_loop w verb true authenticated url data 1 headers s
      = auth_loop w verb true authenticated url data 0
          (build_headers authenticated (w.reauth s.auth_token))
          (reauthenticate w { s with requestLog := s.requestLog ++ [⟨verb, url, headers, data⟩] }) :=
  auth_loop_succ_401_retry w verb authenticated url data 0 headers s h

theorem handle_auth_retry_true (w : World) (verb : String) (authenticated : Bool)
    (url : String) (headers : Params) (data : Option Params) (s : CallState) :
    handle_authentication_errors w verb true url headers data authenticated s
      = auth_loop w verb true authenticated url data 2 headers s := rfl

theorem handle_auth_retry_false (w : World) (verb : String) (authenticated : Bool)
    (url : String) (headers : Params) (data : Option Params) (s : CallState) :
    handle_authentication_errors w verb false url headers data authenticated s
      = auth_loop w verb false authenticated url data 0 headers s := rfl

theorem get_eq_of_base (cfg : Config) (w : World) (endpoint : String)
    (query : Option Params) (authenticated retry : Bool) (s : CallState) (base : String)
    (hb : ENVIRONMENT_URLS cfg.environment = some base) :
    get cfg w endpoint query authenticated retry s
      = (outcomeOf (handle_errors "get" (base ++ endpoint) (handle_on_behalf_of cfg query)
           (handle_authentication_errors w "get" retry (base ++ endpoint)
             (build_headers authenticated s.auth_token) (handle_on_behalf_of cfg query)
             authenticated s).1),
         (handle_authentication_errors w "get" retry (base ++ endpoint)
           (build_headers authenticated s.auth_token) (handle_on_behalf_of cfg query)
           authenticated s).2) := by
  simp [get, build_url, environment_url, hb, Except.map]

theorem post_eq_of_base (cfg : Config) (w : World) (endpoint : String)
    (data : Option Params) (authenticated retry : Bool) (s : CallState) (base : String)
    (hb : ENVIRONMENT_URLS cfg.environment = some base) :
    post cfg w endpoint data authenticated retry s
      = (outcomeOf (handle_errors "post" (base ++ endpoint) (handle_on_behalf_of cfg data)
           (handle_authentication_errors w "post" retry (base ++ endpoint)
             (build_headers authenticated s.auth_token) (handle_on_behalf_of cfg data)
             authenticated s).1),
         (handle_authentication_errors w "post" retry (base ++ endpoint)
           (build_headers authenticated s.auth_token) (handle_on_behalf_of cfg data)
           authenticated s).2) := by
  simp [post, build_url, environment_url, hb, Except.map]

theorem auth_loop_401_401_ok (w : World) (verb : String) (authenticated : Bool)
    (url : String) (data : Option Params) (headers : Params) (s : CallState)
    (h0 : (w.responses s.requestLog.length).status_code = 401)
    (h1 : (w.responses (s.requestLog.length + 1)).status_code = 401)
    (h2 : (w.responses (s.requestLog.length + 2)).status_code ≠ 401) :
    auth_loop w verb true authenticated url data 2 headers s
      = (w.responses (s.requestLog.length + 2),
         { auth_token := w.reauth (w.reauth s.auth_token),
           reauthCount := s.reauthCount + 2,
           requestLog := s.requestLog ++
             [⟨verb, url, headers, data⟩,
              ⟨verb, url, build_headers authenticated (w.reauth s.auth_token), data⟩,
              ⟨verb, url, build_headers authenticated (w.reauth (w.reauth s.auth_token)),
               data⟩] }) := by
  refine (auth_loop_fuel2_401_retry w verb authenticated url data headers s h0).trans ?_
  refine ((auth_loop_fuel1_401_retry _ _ _ _ _ _ _ ?_).trans ?_)
  · simpa using h1
  refine ((auth_loop_not401 _ _ _ _ _ _ _ _ _ ?_).trans ?_)
  · simpa [Nat.add_assoc] using h2
  simp [reauthenticate, Nat.add_assoc]

theorem auth_loop_401_401_401 (w : World) (verb : String) (authenticated : Bool)
    (url : String) (data : Option Params) (headers : Params) (s : CallState)
    (h0 : (w.responses s.requestLog.length).status_code = 401)
    (h1 : (w.responses (s.requestLog.length + 1)).status_code = 401)
    (h2 : (w.responses (s.requestLog.length + 2)).status_code = 401) :
    auth_loop w verb true authenticated url data 2 headers s
      = (w.responses (s.requestLog.length + 2),
         { auth_token := w.reauth (w.reauth (w.reauth s.auth_token)),
           reauthCount := s.reauthCount + 3,
           requestLog := s.requestLog ++
             [⟨verb, url, headers, data⟩,
              ⟨verb, url, build_headers authenticated (w.reauth s.auth_token), data⟩,
              ⟨verb, url, build_headers authenticated (w.reauth (w.reauth s.auth_token)),
               data⟩] }) := by
  refine (auth_loop_fuel2_401_retry w verb authenticated url data headers s h0).trans ?_
  refine ((auth_loop_fuel1_401_retry _ _ _ _ _ _ _ ?_).trans ?_)
  · simpa using h1
  refine ((auth_loop_zero_401_retry _ _ _ _ _ _ _ ?_).trans ?_)
  · simpa [Nat.add_assoc] using h2
  simp [reauthenticate, Nat.add_assoc]

theorem auth_loop_401_ok (w : World) (verb : String) (authenticated : Bool)
    (url : String) (data : Option Params) (headers : Params) (s : CallState)
    (h0 : (w.responses s.requestLog.length).status_code = 401)
    (h1 : (w.responses (s.requestLog.length + 1)).status_code ≠ 401) :
    auth_loop w verb true authenticated url data 2 headers s
      = (w.responses (s.requestLog.length + 1),
         { auth_token := w.reauth s.auth_token,
           reauthCount := s.reauthCount + 1,
           requestLog := s.requestLog ++
             [⟨verb, url, headers, data⟩,
              ⟨verb, url, build_headers authenticated (w.reauth s.auth_token), data⟩] }) := by
  refine (auth_loop_fuel2_401_retry w verb authenticated url data headers s h0).trans ?_
  refine ((auth_loop_not401 _ _ _ _ _ _ _ _ _ ?_).trans ?_)
  · simpa using h1
  simp [reauthenticate, Nat.add_assoc]


/-- Concrete collaborators for witnesses: the transport answers 401 to the
first two requests and 200 afterwards; reauthentication appends a mark to
the token. -/
def sampleWorld : World :=
  { responses := fun i => if i = 0 then ⟨401, "e1"⟩ else if i = 1 then ⟨401, "e2"⟩ else ⟨200, "body"⟩
    reauth := fun t => t ++ "+" }

/-- A transport that rejects every request with 401. -/
def deniedWorld : World :=
  { responses := fun _ => ⟨401, "denied"⟩, reauth := fun t => t ++ "+" }

/-- A transport that answers 401 once and then 200. -/
def flakyWorld : World :=
  { responses := fun i => if i = 0 then ⟨401, "e1"⟩ else ⟨200, "pong"⟩
    reauth := fun t => t ++ "+" }

/-- A production configuration without `on_behalf_of`. -/
def prodConfig : Config := { environment := "production", on_behalf_of := none }

/-- A production configuration with `on_behalf_of` set. -/
def oboConfig : Config := { environment := "production", on_behalf_of := some "acct-42" }

/-- A configuration whose environment is not in the host table. -/
def badConfig : Config := { environment := "sandbox", on_behalf_of := none }

/-- A fresh call state: initial token, no reauthentications, empty log. -/
def freshState : CallState := { auth_token := "tok0", reauthCount := 0, requestLog := [] }

/-- C2: after the retry loop, a response with a 2xx status returns the
parsed body; statuses 400, 403, 404, 429 and 500 raise their specific error
kinds; any other non-2xx status raises the generic `ApiError`; and every
raised error carries the HTTP verb, the resolved URL, the effective request
parameters and the raw response. -/
theorem c2_error_mapping (verb url : String) (params : Option Params) (resp : Response) :
    (200 ≤ resp.status_code → resp.status_code ≤ 299 →
      handle_errors verb url params resp = Except.ok resp.body)
    ∧ (resp.status_code = 400 → handle_errors verb url params resp
        = Except.error ⟨ErrorKind.BadRequestError, verb, url, params, resp⟩)
    ∧ (resp.status_code = 403 → handle_errors verb url params resp
        = Except.error ⟨ErrorKind.ForbiddenError, verb, url, params, resp⟩)
    ∧ (resp.status_code = 404 → handle_errors verb url params resp
        = Except.error ⟨ErrorKind.NotFoundError, verb, url, params, resp⟩)
    ∧ (resp.status_code = 429 → handle_errors verb url params resp
        = Except.error ⟨ErrorKind.TooManyRequestsError, verb, url, params, resp⟩)
    ∧ (resp.status_code = 500 → handle_errors verb url params resp
        = Except.error ⟨ErrorKind.InternalApplicationError, verb, url, params, resp⟩)
    ∧ (¬(200 ≤ resp.status_code ∧ resp.status_code ≤ 299) →
        resp.status_code ∉ ([400, 401, 403, 404, 429, 500] : List Nat) →
        handle_errors verb url params resp
          = Except.error ⟨ErrorKind.ApiError, verb, url, params, resp⟩)
    ∧ (∀ e, handle_errors verb url params resp = Except.error e →
        e.verb = verb ∧ e.url = url ∧ e.params = params ∧ e.response = resp) := by
  have hdiv : resp.status_code / 100 = 2 ↔ 200 ≤ resp.status_code ∧ resp.status_code ≤ 299 := by
    omega
  refine ⟨?_, ?_, ?_, ?_, ?_, ?_, ?_, ?_⟩
  · intro ha hbb
    simp [handle_errors, hdiv.mpr ⟨ha, hbb⟩]
  · intro h; simp [handle_errors, HTTP_CODE_TO_ERROR, h]
  · intro h; simp [handle_errors, HTTP_CODE_TO_ERROR, h]
  · intro h; simp [handle_errors, HTTP_CODE_TO_ERROR, h]
  · intro h; simp [handle_errors, HTTP_CODE_TO_ERROR, h]
  · intro h; simp [handle_errors, HTTP_CODE_TO_ERROR, h]
  · intro h2xx hmem
    simp only [List.mem_cons, List.not_mem_nil, or_false, not_or] at hmem
    obtain ⟨h400, h401, h403, h404, h429, h500⟩ := hmem
    have hne : resp.status_code / 100 ≠ 2 := fun hc => h2xx (hdiv.mp hc)
    simp [handle_errors, HTTP_CODE_TO_ERROR, hne, h400, h401, h403, h404, h429, h500]
  · intro e he
    unfold handle_errors at he
    split at he
    · simp at he
    · rw [Except.error.injEq] at he
      subst he
      exact ⟨rfl, rfl, rfl, rfl⟩

/-- Witness for C2 at status 418: outside 2xx, unmapped, generic `ApiError`. -/
theorem c2_error_mapping_witness :
    ¬(200 ≤ (Response.mk 418 "teapot").status_code
        ∧ (Response.mk 418 "teapot").status_code ≤ 299)
    ∧ (Response.mk 418 "teapot").status_code ∉ ([400, 401, 403, 404, 429, 500] : List Nat)
    ∧ handle_errors "get" "https://api.thecurrencycloud.com/x" none ⟨418, "teapot"⟩
        = Except.error ⟨ErrorKind.ApiError, "get", "https://api.thecurrencycloud.com/x",
            none, ⟨418, "teapot"⟩⟩ :=
  ⟨by decide, by decide,
   (c2_error_mapping "get" "https://api.thecurrencycloud.com/x" none
       ⟨418, "teapot"⟩).2.2.2.2.2.2.1 (by decide) (by decide)⟩

/-- C10: with an invalid environment, `get` and `post` fail atomically: the
`RuntimeError` is raised and the call state is untouched — no parameter
injection, no request, no reauthentication. -/
theorem c10_invalid_env_atomic (cfg : Config) (w : World) (endpoint : String)
    (query : Option Params) (authenticated retry : Bool) (s : CallState)
    (h : ENVIRONMENT_URLS cfg.environment = none) :
    get cfg w endpoint query authenticated retry s
      = (HttpOutcome.runtimeError (cfg.environment ++ " is not a valid environment name"), s)
    ∧ post cfg w endpoint query authenticated retry s
      = (HttpOutcome.runtimeError (cfg.environment ++ " is not a valid environment name"), s) := by
  constructor
  · simp [get, build_url, environment_url, h, Except.map]
  · simp [post, build_url, environment_url, h, Except.map]

/-- Witness for C10 at the unmapped environment name `sandbox`. -/
theorem c10_invalid_env_atomic_witness :
    ENVIRONMENT_URLS badConfig.environment = none
    ∧ get badConfig sampleWorld "/rates" none true true freshState
        = (HttpOutcome.runtimeError (badConfig.environment ++ " is not a valid environment name"),
           freshState) :=
  ⟨by decide,
   (c10_invalid_env_atomic badConfig sampleWorld "/rates" none true true freshState
     (by decide)).1⟩


theorem auth_loop_log_mem (w : World) (verb : String) (retry authenticated : Bool)
    (url : String) (data : Option Params) (m : Nat) :
    ∀ (headers : Params) (s : CallState) (rec : RequestRecord),
      rec ∈ (auth_loop w verb retry authenticated url data m headers s).2.requestLog →
      rec ∈ s.requestLog ∨
        (rec.verb = verb ∧ rec.url = url ∧ rec.data = data ∧
          (rec.headers = headers ∨ ∃ tok, rec.headers = build_headers authenticated tok)) := by
  induction m with
  | zero =>
    intro headers s rec hrec
    by_cases h : (w.responses s.requestLog.length).status_code = 401
    · cases retry
      · rw [auth_loop_zero_401_noretry w verb authenticated url data headers s h] at hrec
        rcases List.mem_append.mp hrec with h1 | h1
        · exact Or.inl h1
        · rw [List.mem_singleton] at h1
          subst h1
          exact Or.inr ⟨rfl, rfl, rfl, Or.inl rfl⟩
      · rw [auth_loop_zero_401_retry w verb authenticated url data headers s h] at hrec
        rcases List.mem_append.mp hrec with h1 | h1
        · exact Or.inl h1
        · rw [List.mem_singleton] at h1
          subst h1
          exact Or.inr ⟨rfl, rfl, rfl, Or.inl rfl⟩
    · rw [auth_loop_not401 w verb retry authenticated url data 0 headers s h] at hrec
      rcases List.mem_append.mp hrec with h1 | h1
      · exact Or.inl h1
      · rw [List.mem_singleton] at h1
        subst h1
        exact Or.inr ⟨rfl, rfl, rfl, Or.inl rfl⟩
  | succ m ih =>
    intro headers s rec hrec
    by_cases h : (w.responses s.requestLog.length).status_code = 401
    · cases retry
      · rw [auth_loop_succ_401_noretry w verb authenticated url data m headers s h] at hrec
        rcases ih headers _ rec hrec with h1 | h1
        · rcases List.mem_append.mp h1 with h2 | h2
          · exact Or.inl h2
          · rw [List.mem_singleton] at h2
            subst h2
            exact Or.inr ⟨rfl, rfl, rfl, Or.inl rfl⟩
        · exact Or.inr h1
      · rw [auth_loop_succ_401_retry w verb authenticated url data m headers s h] at hrec
        rcases ih _ _ rec hrec with h1 | h1
        · rcases List.mem_append.mp h1 with h2 | h2
          · exact Or.inl h2
          · rw [List.mem_singleton] at h2
            subst h2
            exact Or.inr ⟨rfl, rfl, rfl, Or.inl rfl⟩
        · exact Or.inr ⟨h1.1, h1.2.1, h1.2.2.1,
            Or.inr (h1.2.2.2.elim (fun he => ⟨_, he⟩) id)⟩
    · rw [auth_loop_not401 w verb retry authenticated url data (m + 1) headers s h] at hrec
      rcases List.mem_append.mp hrec with h1 | h1
      · exact Or.inl h1
      · rw [List.mem_singleton] at h1
        subst h1
        exact Or.inr ⟨rfl, rfl, rfl, Or.inl rfl⟩

theorem auth_loop_log_shape (w : World) (verb : String) (retry authenticated : Bool)
    (url : String) (data : Option Params) (m : Nat) :
    ∀ (headers : Params) (s : CallState), ∃ t : List RequestRecord,
      (auth_loop w verb retry authenticated url data m headers s).2.requestLog
        = s.requestLog ++ ⟨verb, url, headers, data⟩ :: t := by
  induction m with
  | zero =>
    intro headers s
    by_cases h : (w.responses s.requestLog.length).status_code = 401
    · cases retry
      · exact ⟨[], by rw [auth_loop_zero_401_noretry w verb authenticated url data headers s h]⟩
      · exact ⟨[], by rw [auth_loop_zero_401_retry w verb authenticated url data headers s h]; simp⟩
    · exact ⟨[], by rw [auth_loop_not401 w verb retry authenticated url data 0 headers s h]⟩
  | succ m ih =>
    intro headers s
    by_cases h : (w.responses s.requestLog.length).status_code = 401
    · cases retry
      · obtain ⟨t, ht⟩ := ih headers
          { s with requestLog := s.requestLog ++ [⟨verb, url, headers, data⟩] }
        refine ⟨⟨verb, url, headers, data⟩ :: t, ?_⟩
        rw [auth_loop_succ_401_noretry w verb authenticated url data m headers s h, ht]
        simp
      · obtain ⟨t, ht⟩ := ih (build_headers authenticated (w.reauth s.auth_token))
          (reauthenticate w { s with requestLog := s.requestLog ++ [⟨verb, url, headers, data⟩] })
        refine ⟨⟨verb, url, build_headers authenticated (w.reauth s.auth_token), data⟩ :: t, ?_⟩
        rw [auth_loop_succ_401_retry w verb authenticated url data m headers s h, ht]
        simp
    · exact ⟨[], by rw [auth_loop_not401 w verb retry authenticated url data (m + 1) headers s h]⟩


/-- C5: each valid environment resolves to its fixed base URL concatenated
with the endpoint, every request a `get`/`post` call issues goes to that
URL, and any other environment raises the `RuntimeError` before any request
is issued. -/
theorem c5_environment_resolution (cfg : Config) (w : World) (endpoint : String)
    (query : Option Params) (authenticated retry : Bool) (s : CallState) :
    (cfg.environment = ENV_PRODUCTION →
      build_url cfg endpoint = Except.ok ("https://api.thecurrencycloud.com" ++ endpoint))
    ∧ (cfg.environment = ENV_DEMONSTRATION →
      build_url cfg endpoint = Except.ok ("https://devapi.thecurrencycloud.com" ++ endpoint))
    ∧ (cfg.environment = ENV_UAT →
      build_url cfg endpoint = Except.ok ("https://api-uat1.ccycloud.com" ++ endpoint))
    ∧ (∀ base, ENVIRONMENT_URLS cfg.environment = some base →
        (∀ rec ∈ (get cfg w endpoint query authenticated retry s).2.requestLog,
          rec ∈ s.requestLog ∨ rec.url = base ++ endpoint)
        ∧ (∀ rec ∈ (post cfg w endpoint query authenticated retry s).2.requestLog,
          rec ∈ s.requestLog ∨ rec.url = base ++ endpoint))
    ∧ (ENVIRONMENT_URLS cfg.environment = none →
        get cfg w endpoint query authenticated retry s
          = (HttpOutcome.runtimeError (cfg.environment ++ " is not a valid environment name"), s)
        ∧ post cfg w endpoint query authenticated retry s
          = (HttpOutcome.runtimeError (cfg.environment ++ " is not a valid environment name"),
             s)) := by
  refine ⟨?_, ?_, ?_, ?_, ?_⟩
  · intro h
    simp [build_url, environment_url, ENVIRONMENT_URLS, h, Except.map]
  · intro h
    simp +decide [build_url, environment_url, ENVIRONMENT_URLS, h,
      ENV_PRODUCTION, ENV_DEMONSTRATION, Except.map]
  · intro h
    simp +decide [build_url, environment_url, ENVIRONMENT_URLS, h,
      ENV_PRODUCTION, ENV_DEMONSTRATION, ENV_UAT, Except.map]
  · intro base hbase
    constructor
    · intro rec hrec
      rw [get_eq_of_base cfg w endpoint query authenticated retry s base hbase] at hrec
      simp only [handle_authentication_errors] at hrec
      rcases auth_loop_log_mem w "get" retry authenticated (base ++ endpoint)
          (handle_on_behalf_of cfg query) (if retry then 2 else 0)
          (build_headers authenticated s.auth_token) s rec hrec with hmem | hmem
      · exact Or.inl hmem
      · exact Or.inr hmem.2.1
    · intro rec hrec
      rw [post_eq_of_base cfg w endpoint query authenticated retry s base hbase] at hrec
      simp only [handle_authentication_errors] at hrec
      rcases auth_loop_log_mem w "post" retry authenticated (base ++ endpoint)
          (handle_on_behalf_of cfg query) (if retry then 2 else 0)
          (build_headers authenticated s.auth_token) s rec hrec with hmem | hmem
      · exact Or.inl hmem
      · exact Or.inr hmem.2.1
  · intro h
    constructor
    · simp [get, build_url, environment_url, h, Except.map]
    · simp [post, build_url, environment_url, h, Except.map]

/-- Witness for C5: production resolves to the production host, and the
`sandbox` environment fails with the `RuntimeError`. -/
theorem c5_environment_resolution_witness :
    (prodConfig.environment = ENV_PRODUCTION
      ∧ build_url prodConfig "/rates" = Except.ok ("https://api.thecurrencycloud.com" ++ "/rates"))
    ∧ (ENVIRONMENT_URLS badConfig.environment = none
      ∧ get badConfig sampleWorld "/rates" none true true freshState
          = (HttpOutcome.runtimeError (badConfig.environment ++ " is not a valid environment name"),
             freshState)) :=
  ⟨⟨by decide,
    (c5_environment_resolution prodConfig sampleWorld "/rates" none true true freshState).1
      (by decide)⟩,
   ⟨by decide,
    ((c5_environment_resolution badConfig sampleWorld "/rates" none true true freshState).2.2.2.2
      (by decide)).1⟩⟩


theorem lookup_append_self (d : Params) (k v : String) (h : containsKey d k = false) :
    (d ++ [(k, v)]).lookup k = some v := by
  induction d with
  | nil => simp [List.lookup]
  | cons p d ih =>
    simp only [containsKey, List.any_cons, Bool.or_eq_false_iff] at h
    obtain ⟨h1, h2⟩ := h
    obtain ⟨a, b⟩ := p
    have hk : (k == a) = false := by
      simp only [decide_eq_false_iff_not] at h1
      exact beq_eq_false_iff_ne.mpr (fun he => h1 he.symm)
    rw [List.cons_append, List.lookup, hk]
    exact ih h2

/-- C6: for every `get`/`post` call the effective parameters are the result
of `__handle_on_behalf_of`: with `on_behalf_of` configured and the key
absent, the key is injected with the configured value (starting from an
empty mapping when the caller passed none); a caller-supplied entry is
never overwritten; and with `on_behalf_of` unset the parameters pass
through unchanged. -/
theorem c6_on_behalf_of_injection (cfg : Config) (data : Option Params) :
    (cfg.on_behalf_of = none → handle_on_behalf_of cfg data = data)
    ∧ (∀ v, cfg.on_behalf_of = some v → data = none →
        handle_on_behalf_of cfg data = some [("on_behalf_of", v)])
    ∧ (∀ v d, cfg.on_behalf_of = some v → data = some d →
        containsKey d "on_behalf_of" = false →
        handle_on_behalf_of cfg data = some (d ++ [("on_behalf_of", v)])
        ∧ (d ++ [("on_behalf_of", v)]).lookup "on_behalf_of" = some v)
    ∧ (∀ v d, cfg.on_behalf_of = some v → data = some d →
        containsKey d "on_behalf_of" = true →
        handle_on_behalf_of cfg data = some d)
    ∧ (∀ (w : World) (endpoint : String) (authenticated retry : Bool) (s : CallState)
          (base : String), ENVIRONMENT_URLS cfg.environment = some base →
        (∀ rec ∈ (get cfg w endpoint data authenticated retry s).2.requestLog,
          rec ∈ s.requestLog ∨ rec.data = handle_on_behalf_of cfg data)
        ∧ (∀ rec ∈ (post cfg w endpoint data authenticated retry s).2.requestLog,
          rec ∈ s.requestLog ∨ rec.data = handle_on_behalf_of cfg data)) := by
  refine ⟨?_, ?_, ?_, ?_, ?_⟩
  · intro h; simp [handle_on_behalf_of, h]
  · intro v hv hd; simp [handle_on_behalf_of, hv, hd, containsKey]
  · intro v d hv hd hkey
    constructor
    · simp [handle_on_behalf_of, hv, hd, hkey]
    · exact lookup_append_self d "on_behalf_of" v hkey
  · intro v d hv hd hkey
    simp [handle_on_behalf_of, hv, hd, hkey]
  · intro w endpoint authenticated retry s base hbase
    constructor
    · intro rec hrec
      rw [get_eq_of_base cfg w endpoint data authenticated retry s base hbase] at hrec
      simp only [handle_authentication_errors] at hrec
      rcases auth_loop_log_mem w "get" retry authenticated (base ++ endpoint)
          (handle_on_behalf_of cfg data) (if retry then 2 else 0)
          (build_headers authenticated s.auth_token) s rec hrec with hmem | hmem
      · exact Or.inl hmem
      · exact Or.inr hmem.2.2.1
    · intro rec hrec
      rw [post_eq_of_base cfg w endpoint data authenticated retry s base hbase] at hrec
      simp only [handle_authentication_errors] at hrec
      rcases auth_loop_log_mem w "post" retry authenticated (base ++ endpoint)
          (handle_on_behalf_of cfg data) (if retry then 2 else 0)
          (build_headers authenticated s.auth_token) s rec hrec with hmem | hmem
      · exact Or.inl hmem
      · exact Or.inr hmem.2.2.1

/-- Witness for C6: injection into a mapping lacking the key, and
preservation of a caller-supplied entry. -/
theorem c6_on_behalf_of_injection_witness :
    (oboConfig.on_behalf_of = some "acct-42"
      ∧ containsKey [("amount", "10")] "on_behalf_of" = false
      ∧ handle_on_behalf_of oboConfig (some [("amount", "10")])
          = some ([("amount", "10")] ++ [("on_behalf_of", "acct-42")]))
    ∧ (containsKey [("on_behalf_of", "mine")] "on_behalf_of" = true
      ∧ handle_on_behalf_of oboConfig (some [("on_behalf_of", "mine")])
          = some [("on_behalf_of", "mine")]) :=
  ⟨⟨by decide, by decide,
    ((c6_on_behalf_of_injection oboConfig (some [("amount", "10")])).2.2.1 "acct-42"
      [("amount", "10")] (by decide) rfl (by decide)).1⟩,
   ⟨by decide,
    (c6_on_behalf_of_injection oboConfig (some [("on_behalf_of", "mine")])).2.2.2.1 "acct-42"
      [("on_behalf_of", "mine")] (by decide) rfl (by decide)⟩⟩

/-- C7: with `authenticated=True` the headers are the single `X-Auth-Token`
entry carrying the current token, with `authenticated=False` they are
empty; the first request of every `get`/`post` call carries exactly these
headers, and every retried request's headers are again built by
`__build_headers` with the same flag. -/
theorem c7_auth_headers (cfg : Config) (w : World) (endpoint : String)
    (query : Option Params) (authenticated retry : Bool) (s : CallState) :
    (build_headers true s.auth_token = [("X-Auth-Token", s.auth_token)])
    ∧ (build_headers false s.auth_token = [])
    ∧ (∀ base, ENVIRONMENT_URLS cfg.environment = some base →
        (∃ t, (get cfg w endpoint query authenticated retry s).2.requestLog
          = s.requestLog
            ++ ⟨"get", base ++ endpoint, build_headers authenticated s.auth_token,
                handle_on_behalf_of cfg query⟩ :: t)
        ∧ (∃ t, (post cfg w endpoint query authenticated retry s).2.requestLog
          = s.requestLog
            ++ ⟨"post", base ++ endpoint, build_headers authenticated s.auth_token,
                handle_on_behalf_of cfg query⟩ :: t)
        ∧ (∀ rec ∈ (get cfg w endpoint query authenticated retry s).2.requestLog,
            rec ∈ s.requestLog ∨ ∃ tok, rec.headers = build_headers authenticated tok)
        ∧ (∀ rec ∈ (post cfg w endpoint query authenticated retry s).2.requestLog,
            rec ∈ s.requestLog ∨ ∃ tok, rec.headers = build_headers authenticated tok)) := by
  refine ⟨by simp [build_headers], by simp [build_headers], ?_⟩
  intro base hbase
  refine ⟨?_, ?_, ?_, ?_⟩
  · rw [get_eq_of_base cfg w endpoint query authenticated retry s base hbase]
    simp only [handle_authentication_errors]
    exact auth_loop_log_shape w "get" retry authenticated (base ++ endpoint)
      (handle_on_behalf_of cfg query) (if retry then 2 else 0)
      (build_headers authenticated s.auth_token) s
  · rw [post_eq_of_base cfg w endpoint query authenticated retry s base hbase]
    simp only [handle_authentication_errors]
    exact auth_loop_log_shape w "post" retry authenticated (base ++ endpoint)
      (handle_on_behalf_of cfg query) (if retry then 2 else 0)
      (build_headers authenticated s.auth_token) s
  · intro rec hrec
    rw [get_eq_of_base cfg w endpoint query authenticated retry s base hbase] at hrec
    simp only [handle_authentication_errors] at hrec
    rcases auth_loop_log_mem w "get" retry authenticated (base ++ endpoint)
        (handle_on_behalf_of cfg query) (if retry then 2 else 0)
        (build_headers authenticated s.auth_token) s rec hrec with hmem | hmem
    · exact Or.inl hmem
    · rcases hmem.2.2.2 with hh | hh
      · exact Or.inr ⟨s.auth_token, hh⟩
      · exact Or.inr hh
  · intro rec hrec
    rw [post_eq_of_base cfg w endpoint query authenticated retry s base hbase] at hrec
    simp only [handle_authentication_errors] at hrec
    rcases auth_loop_log_mem w "post" retry authenticated (base ++ endpoint)
        (handle_on_behalf_of cfg query) (if retry then 2 else 0)
        (build_headers authenticated s.auth_token) s rec hrec with hmem | hmem
    · exact Or.inl hmem
    · rcases hmem.2.2.2 with hh | hh
      · exact Or.inr ⟨s.auth_token, hh⟩
      · exact Or.inr hh

/-- Witness for C7: an authenticated `get` against the sample transport
issues its first request with the single `X-Auth-Token` header. -/
theorem c7_auth_headers_witness :
    ENVIRONMENT_URLS prodConfig.environment = some "https://api.thecurrencycloud.com"
    ∧ (∃ t, (get prodConfig sampleWorld "/rates" none true true freshState).2.requestLog
        = freshState.requestLog
          ++ ⟨"get", "https://api.thecurrencycloud.com" ++ "/rates",
              build_headers true freshState.auth_token,
              handle_on_behalf_of prodConfig none⟩ :: t) :=
  ⟨by decide,
   ((c7_auth_headers prodConfig sampleWorld "/rates" none true true freshState).2.2
     "https://api.thecurrencycloud.com" (by decide)).1⟩


/-- C1: the retry loop issues at most 3 attempts when `retry` is true and 1
when it is false, always at least one; the response returned is the last
one obtained; all attempts before it saw 401; a non-401 return means
re-authentication ran only for the preceding 401 attempts (never for the
returned response); with `retry` false re-authentication never runs; and
`get`/`post` pass exactly the loop's final response to error mapping. -/
theorem c1_auth_retry_loop (w : World) (verb : String) (retry authenticated : Bool)
    (url : String) (headers : Params) (data : Option Params) (s : CallState) :
    (∃ k,
      (handle_authentication_errors w verb retry url headers data authenticated s).2.requestLog.length
          = s.requestLog.length + k
        ∧ 1 ≤ k ∧ k ≤ (if retry then 3 else 1)
        ∧ (handle_authentication_errors w verb retry url headers data authenticated s).1
            = w.responses (s.requestLog.length + k - 1)
        ∧ (∀ j, j + 1 < k → (w.responses (s.requestLog.length + j)).status_code = 401)
        ∧ ((handle_authentication_errors w verb retry url headers data authenticated s).1.status_code
              ≠ 401 →
            (handle_authentication_errors w verb retry url headers data authenticated s).2.reauthCount
              = s.reauthCount + (if retry then k - 1 else 0))
        ∧ (retry = false →
            (handle_authentication_errors w verb retry url headers data authenticated s).2.reauthCount
              = s.reauthCount))
    ∧ (∀ (cfg : Config) (endpoint : String) (query : Option Params) (base : String),
        ENVIRONMENT_URLS cfg.environment = some base →
        get cfg w endpoint query authenticated retry s
          = (outcomeOf (handle_errors "get" (base ++ endpoint) (handle_on_behalf_of cfg query)
               (handle_authentication_errors w "get" retry (base ++ endpoint)
                 (build_headers authenticated s.auth_token) (handle_on_behalf_of cfg query)
                 authenticated s).1),
             (handle_authentication_errors w "get" retry (base ++ endpoint)
               (build_headers authenticated s.auth_token) (handle_on_behalf_of cfg query)
               authenticated s).2))
    ∧ (∀ (cfg : Config) (endpoint : String) (body : Option Params) (base : String),
        ENVIRONMENT_URLS cfg.environment = some base →
        post cfg w endpoint body authenticated retry s
          = (outcomeOf (handle_errors "post" (base ++ endpoint) (handle_on_behalf_of cfg body)
               (handle_authentication_errors w "post" retry (base ++ endpoint)
                 (build_headers authenticated s.auth_token) (handle_on_behalf_of cfg body)
                 authenticated s).1),
             (handle_authentication_errors w "post" retry (base ++ endpoint)
               (build_headers authenticated s.auth_token) (handle_on_behalf_of cfg body)
               authenticated s).2)) := by
  refine ⟨?_, ?_, ?_⟩
  · obtain ⟨k, hl, h1, hm, hresp, h401, hre, hpres⟩ :=
      auth_loop_run w verb retry authenticated url data (if retry then 2 else 0) headers s
    refine ⟨k, ?_⟩
    simp only [handle_authentication_errors]
    refine ⟨hl, h1, ?_, hresp, h401, hre, fun hf => (hpres hf).1⟩
    cases retry
    · simpa using hm
    · simpa using hm
  · intro cfg endpoint query base hb
    exact get_eq_of_base cfg w endpoint query authenticated retry s base hb
  · intro cfg endpoint body base hb
    exact post_eq_of_base cfg w endpoint body authenticated retry s base hb

/-- Witness for C1: the pass-through of the loop's final response to error
mapping, instantiated at the sample transport in production. -/
theorem c1_auth_retry_loop_witness :
    ENVIRONMENT_URLS prodConfig.environment = some "https://api.thecurrencycloud.com"
    ∧ get prodConfig sampleWorld "/x" none true true freshState
        = (outcomeOf (handle_errors "get" ("https://api.thecurrencycloud.com" ++ "/x")
             (handle_on_behalf_of prodConfig none)
             (handle_authentication_errors sampleWorld "get" true
               ("https://api.thecurrencycloud.com" ++ "/x")
               (build_headers true freshState.auth_token) (handle_on_behalf_of prodConfig none)
               true freshState).1),
           (handle_authentication_errors sampleWorld "get" true
             ("https://api.thecurrencycloud.com" ++ "/x")
             (build_headers true freshState.auth_token) (handle_on_behalf_of prodConfig none)
             true freshState).2) :=
  ⟨by decide,
   (c1_auth_retry_loop sampleWorld "get" true true ("https://api.thecurrencycloud.com" ++ "/x")
      (build_headers true freshState.auth_token) (handle_on_behalf_of prodConfig none)
      freshState).2.1 prodConfig "/x" none "https://api.thecurrencycloud.com" (by decide)⟩


/-- C3: with `retry=True` and a transport answering 401, 401, 200, a call
issues exactly 3 requests, re-authenticates exactly twice, sends each
retried request with the token current after the preceding
re-authentication, and returns the final 200 body as success. -/
theorem c3_two_reauths_then_success (w : World) (cfg : Config) (endpoint : String)
    (query : Option Params) (s : CallState) (base : String)
    (hb : ENVIRONMENT_URLS cfg.environment = some base)
    (h0 : (w.responses s.requestLog.length).status_code = 401)
    (h1 : (w.responses (s.requestLog.length + 1)).status_code = 401)
    (h2 : (w.responses (s.requestLog.length + 2)).status_code = 200) :
    get cfg w endpoint query true true s
      = (HttpOutcome.success (w.responses (s.requestLog.length + 2)).body,
         { auth_token := w.reauth (w.reauth s.auth_token),
           reauthCount := s.reauthCount + 2,
           requestLog := s.requestLog ++
             [⟨"get", base ++ endpoint, [("X-Auth-Token", s.auth_token)],
               handle_on_behalf_of cfg query⟩,
              ⟨"get", base ++ endpoint, [("X-Auth-Token", w.reauth s.auth_token)],
               handle_on_behalf_of cfg query⟩,
              ⟨"get", base ++ endpoint, [("X-Auth-Token", w.reauth (w.reauth s.auth_token))],
               handle_on_behalf_of cfg query⟩] })
    ∧ post cfg w endpoint query true true s
      = (HttpOutcome.success (w.responses (s.requestLog.length + 2)).body,
         { auth_token := w.reauth (w.reauth s.auth_token),
           reauthCount := s.reauthCount + 2,
           requestLog := s.requestLog ++
             [⟨"post", base ++ endpoint, [("X-Auth-Token", s.auth_token)],
               handle_on_behalf_of cfg query⟩,
              ⟨"post", base ++ endpoint, [("X-Auth-Token", w.reauth s.auth_token)],
               handle_on_behalf_of cfg query⟩,
              ⟨"post", base ++ endpoint, [("X-Auth-Token", w.reauth (w.reauth s.auth_token))],
               handle_on_behalf_of cfg query⟩] }) := by
  constructor
  · rw [get_eq_of_base cfg w endpoint query true true s base hb, handle_auth_retry_true,
      auth_loop_401_401_ok w "get" true (base ++ endpoint) (handle_on_behalf_of cfg query)
        (build_headers true s.auth_token) s h0 h1 (by rw [h2]; decide)]
    simp [handle_errors, outcomeOf, h2, build_headers]
  · rw [post_eq_of_base cfg w endpoint query true true s base hb, handle_auth_retry_true,
      auth_loop_401_401_ok w "post" true (base ++ endpoint) (handle_on_behalf_of cfg query)
        (build_headers true s.auth_token) s h0 h1 (by rw [h2]; decide)]
    simp [handle_errors, outcomeOf, h2, build_headers]

/-- Witness for C3 on the sample transport (401, 401, 200) in production. -/
theorem c3_two_reauths_then_success_witness :
    ENVIRONMENT_URLS prodConfig.environment = some "https://api.thecurrencycloud.com"
    ∧ (sampleWorld.responses freshState.requestLog.length).status_code = 401
    ∧ (sampleWorld.responses (freshState.requestLog.length + 1)).status_code = 401
    ∧ (sampleWorld.responses (freshState.requestLog.length + 2)).status_code = 200
    ∧ get prodConfig sampleWorld "/x" none true true freshState
      = (HttpOutcome.success (sampleWorld.responses (freshState.requestLog.length + 2)).body,
         { auth_token := sampleWorld.reauth (sampleWorld.reauth freshState.auth_token),
           reauthCount := freshState.reauthCount + 2,
           requestLog := freshState.requestLog ++
             [⟨"get", "https://api.thecurrencycloud.com" ++ "/x",
               [("X-Auth-Token", freshState.auth_token)], handle_on_behalf_of prodConfig none⟩,
              ⟨"get", "https://api.thecurrencycloud.com" ++ "/x",
               [("X-Auth-Token", sampleWorld.reauth freshState.auth_token)],
               handle_on_behalf_of prodConfig none⟩,
              ⟨"get", "https://api.thecurrencycloud.com" ++ "/x",
               [("X-Auth-Token", sampleWorld.reauth (sampleWorld.reauth freshState.auth_token))],
               handle_on_behalf_of prodConfig none⟩] }) :=
  ⟨by decide, by decide, by decide, by decide,
   (c3_two_reauths_then_success sampleWorld prodConfig "/x" none freshState
      "https://api.thecurrencycloud.com" (by decide) (by decide) (by decide) (by decide)).1⟩

/-- C4: with `retry=False` and a first response of 401, exactly one request
is issued, re-authentication never runs, and the 401 is mapped to an
`AuthenticationError` carrying the full request context. -/
theorem c4_no_retry_single_401 (w : World) (cfg : Config) (endpoint : String)
    (query : Option Params) (s : CallState) (base : String)
    (hb : ENVIRONMENT_URLS cfg.environment = some base)
    (h0 : (w.responses s.requestLog.length).status_code = 401) :
    get cfg w endpoint query true false s
      = (HttpOutcome.apiError
           ⟨ErrorKind.AuthenticationError, "get", base ++ endpoint,
            handle_on_behalf_of cfg query, w.responses s.requestLog.length⟩,
         { s with requestLog := s.requestLog ++
             [⟨"get", base ++ endpoint, [("X-Auth-Token", s.auth_token)],
               handle_on_behalf_of cfg query⟩] })
    ∧ post cfg w endpoint query true false s
      = (HttpOutcome.apiError
           ⟨ErrorKind.AuthenticationError, "post", base ++ endpoint,
            handle_on_behalf_of cfg query, w.responses s.requestLog.length⟩,
         { s with requestLog := s.requestLog ++
             [⟨"post", base ++ endpoint, [("X-Auth-Token", s.auth_token)],
               handle_on_behalf_of cfg query⟩] }) := by
  constructor
  · rw [get_eq_of_base cfg w endpoint query true false s base hb, handle_auth_retry_false,
      auth_loop_zero_401_noretry w "get" true (base ++ endpoint)
        (handle_on_behalf_of cfg query) (build_headers true s.auth_token) s h0]
    simp [handle_errors, HTTP_CODE_TO_ERROR, outcomeOf, h0, build_headers]
  · rw [post_eq_of_base cfg w endpoint query true false s base hb, handle_auth_retry_false,
      auth_loop_zero_401_noretry w "post" true (base ++ endpoint)
        (handle_on_behalf_of cfg query) (build_headers true s.auth_token) s h0]
    simp [handle_errors, HTTP_CODE_TO_ERROR, outcomeOf, h0, build_headers]

/-- Witness for C4 on the sample transport (first answer 401). -/
theorem c4_no_retry_single_401_witness :
    ENVIRONMENT_URLS prodConfig.environment = some "https://api.thecurrencycloud.com"
    ∧ (sampleWorld.responses freshState.requestLog.length).status_code = 401
    ∧ get prodConfig sampleWorld "/x" none true false freshState
      = (HttpOutcome.apiError
           ⟨ErrorKind.AuthenticationError, "get", "https://api.thecurrencycloud.com" ++ "/x",
            handle_on_behalf_of prodConfig none,
            sampleWorld.responses freshState.requestLog.length⟩,
         { freshState with requestLog := freshState.requestLog ++
             [⟨"get", "https://api.thecurrencycloud.com" ++ "/x",
               [("X-Auth-Token", freshState.auth_token)],
               handle_on_behalf_of prodConfig none⟩] }) :=
  ⟨by decide, by decide,
   (c4_no_retry_single_401 sampleWorld prodConfig "/x" none freshState
      "https://api.thecurrencycloud.com" (by decide) (by decide)).1⟩


/-- C8: with `retry=True` and a transport answering 401 to every attempt,
exactly 3 requests are issued but re-authentication runs 3 times — once
after each 401, including the final one, whose refreshed token is never
used in any request — before the stale 401 is mapped to an
`AuthenticationError`. -/
theorem c8_exhausted_retries_three_reauths (w : World) (cfg : Config) (endpoint : String)
    (query : Option Params) (s : CallState) (base : String)
    (hb : ENVIRONMENT_URLS cfg.environment = some base)
    (h0 : (w.responses s.requestLog.length).status_code = 401)
    (h1 : (w.responses (s.requestLog.length + 1)).status_code = 401)
    (h2 : (w.responses (s.requestLog.length + 2)).status_code = 401) :
    get cfg w endpoint query true true s
      = (HttpOutcome.apiError
           ⟨ErrorKind.AuthenticationError, "get", base ++ endpoint,
            handle_on_behalf_of cfg query, w.responses (s.requestLog.length + 2)⟩,
         { auth_token := w.reauth (w.reauth (w.reauth s.auth_token)),
           reauthCount := s.reauthCount + 3,
           requestLog := s.requestLog ++
             [⟨"get", base ++ endpoint, [("X-Auth-Token", s.auth_token)],
               handle_on_behalf_of cfg query⟩,
              ⟨"get", base ++ endpoint, [("X-Auth-Token", w.reauth s.auth_token)],
               handle_on_behalf_of cfg query⟩,
              ⟨"get", base ++ endpoint, [("X-Auth-Token", w.reauth (w.reauth s.auth_token))],
               handle_on_behalf_of cfg query⟩] })
    ∧ post cfg w endpoint query true true s
      = (HttpOutcome.apiError
           ⟨ErrorKind.AuthenticationError, "post", base ++ endpoint,
            handle_on_behalf_of cfg query, w.responses (s.requestLog.length + 2)⟩,
         { auth_token := w.reauth (w.reauth (w.reauth s.auth_token)),
           reauthCount := s.reauthCount + 3,
           requestLog := s.requestLog ++
             [⟨"post", base ++ endpoint, [("X-Auth-Token", s.auth_token)],
               handle_on_behalf_of cfg query⟩,
              ⟨"post", base ++ endpoint, [("X-Auth-Token", w.reauth s.auth_token)],
               handle_on_behalf_of cfg query⟩,
              ⟨"post", base ++ endpoint, [("X-Auth-Token", w.reauth (w.reauth s.auth_token))],
               handle_on_behalf_of cfg query⟩] }) := by
  constructor
  · rw [get_eq_of_base cfg w endpoint query true true s base hb, handle_auth_retry_true,
      auth_loop_401_401_401 w "get" true (base ++ endpoint) (handle_on_behalf_of cfg query)
        (build_headers true s.auth_token) s h0 h1 h2]
    simp [handle_errors, HTTP_CODE_TO_ERROR, outcomeOf, h2, build_headers]
  · rw [post_eq_of_base cfg w endpoint query true true s base hb, handle_auth_retry_true,
      auth_loop_401_401_401 w "post" true (base ++ endpoint) (handle_on_behalf_of cfg query)
        (build_headers true s.auth_token) s h0 h1 h2]
    simp [handle_errors, HTTP_CODE_TO_ERROR, outcomeOf, h2, build_headers]

/-- Witness for C8 on the always-401 transport. -/
theorem c8_exhausted_retries_three_reauths_witness :
    ENVIRONMENT_URLS prodConfig.environment = some "https://api.thecurrencycloud.com"
    ∧ (deniedWorld.responses freshState.requestLog.length).status_code = 401
    ∧ (deniedWorld.responses (freshState.requestLog.length + 1)).status_code = 401
    ∧ (deniedWorld.responses (freshState.requestLog.length + 2)).status_code = 401
    ∧ get prodConfig deniedWorld "/x" none true true freshState
      = (HttpOutcome.apiError
           ⟨ErrorKind.AuthenticationError, "get", "https://api.thecurrencycloud.com" ++ "/x",
            handle_on_behalf_of prodConfig none,
            deniedWorld.responses (freshState.requestLog.length + 2)⟩,
         { auth_token := deniedWorld.reauth (deniedWorld.reauth
             (deniedWorld.reauth freshState.auth_token)),
           reauthCount := freshState.reauthCount + 3,
           requestLog := freshState.requestLog ++
             [⟨"get", "https://api.thecurrencycloud.com" ++ "/x",
               [("X-Auth-Token", freshState.auth_token)], handle_on_behalf_of prodConfig none⟩,
              ⟨"get", "https://api.thecurrencycloud.com" ++ "/x",
               [("X-Auth-Token", deniedWorld.reauth freshState.auth_token)],
               handle_on_behalf_of prodConfig none⟩,
              ⟨"get", "https://api.thecurrencycloud.com" ++ "/x",
               [("X-Auth-Token", deniedWorld.reauth (deniedWorld.reauth freshState.auth_token))],
               handle_on_behalf_of prodConfig none⟩] }) :=
  ⟨by decide, by decide, by decide, by decide,
   (c8_exhausted_retries_three_reauths deniedWorld prodConfig "/x" none freshState
      "https://api.thecurrencycloud.com" (by decide) (by decide) (by decide) (by decide)).1⟩

/-- C9: with `authenticated=False` and `retry=True`, a 401 still triggers
re-authentication (the shared token is refreshed and the invocation
counted), yet the retried request again carries no auth header. -/
theorem c9_unauthenticated_retry_no_header (w : World) (cfg : Config) (endpoint : String)
    (query : Option Params) (s : CallState) (base : String)
    (hb : ENVIRONMENT_URLS cfg.environment = some base)
    (h0 : (w.responses s.requestLog.length).status_code = 401)
    (h1 : (w.responses (s.requestLog.length + 1)).status_code ≠ 401) :
    (get cfg w endpoint query false true s).2
      = { auth_token := w.reauth s.auth_token,
          reauthCount := s.reauthCount + 1,
          requestLog := s.requestLog ++
            [⟨"get", base ++ endpoint, [], handle_on_behalf_of cfg query⟩,
             ⟨"get", base ++ endpoint, [], handle_on_behalf_of cfg query⟩] }
    ∧ (post cfg w endpoint query false true s).2
      = { auth_token := w.reauth s.auth_token,
          reauthCount := s.reauthCount + 1,
          requestLog := s.requestLog ++
            [⟨"post", base ++ endpoint, [], handle_on_behalf_of cfg query⟩,
             ⟨"post", base ++ endpoint, [], handle_on_behalf_of cfg query⟩] } := by
  constructor
  · rw [get_eq_of_base cfg w endpoint query false true s base hb]
    simp only [handle_auth_retry_true]
    rw [auth_loop_401_ok w "get" false (base ++ endpoint) (handle_on_behalf_of cfg query)
      (build_headers false s.auth_token) s h0 h1]
    simp [build_headers]
  · rw [post_eq_of_base cfg w endpoint query false true s base hb]
    simp only [handle_auth_retry_true]
    rw [auth_loop_401_ok w "post" false (base ++ endpoint) (handle_on_behalf_of cfg query)
      (build_headers false s.auth_token) s h0 h1]
    simp [build_headers]

/-- Witness for C9 on the 401-then-200 transport. -/
theorem c9_unauthenticated_retry_no_header_witness :
    ENVIRONMENT_URLS prodConfig.environment = some "https://api.thecurrencycloud.com"
    ∧ (flakyWorld.responses freshState.requestLog.length).status_code = 401
    ∧ (flakyWorld.responses (freshState.requestLog.length + 1)).status_code ≠ 401
    ∧ (get prodConfig flakyWorld "/x" none false true freshState).2
      = { auth_token := flakyWorld.reauth freshState.auth_token,
          reauthCount := freshState.reauthCount + 1,
          requestLog := freshState.requestLog ++
            [⟨"get", "https://api.thecurrencycloud.com" ++ "/x", [],
              handle_on_behalf_of prodConfig none⟩,
             ⟨"get", "https://api.thecurrencycloud.com" ++ "/x", [],
              handle_on_behalf_of prodConfig none⟩] } :=
  ⟨by decide, by decide, by decide,
   (c9_unauthenticated_retry_no_header flakyWorld prodConfig "/x" none freshState
      "https://api.thecurrencycloud.com" (by decide) (by decide) (by decide)).1⟩

end Currencycloud
